import Mathlib

/-!
Verification of the Irregular-Python snake games.

Shallow embedding of the grid-simulation cores of the game variants in this
repository:

* namespace `Explodo` embeds `src/hungry_caterpillar_explodo.py` (snake stored
  in a deque with the head at the *right* end, rocks, timed explosive food,
  explosions with debris);
* namespace `SnakeGame` embeds `src/snake_game.py` (and the logically
  identical simulation core of `src/caterpillar_game.py`): body stored
  head-first, `move` / `change_direction` / `check_collision` / `eat_food`,
  and the `Food.generate_position` rejection loop.

Python floats (fuse timers, delta-times) are embedded as exact rationals, and
the two float comparisons against the blast radius 2.4 are embedded as exact
scaled-integer comparisons (see `withinBlast` and `inAnnulus`): the squared
distances involved are integers while the thresholds 5.76, 3.456 and 7.488
are not, so exact and IEEE-double evaluation agree on every instance.
Euclidean comparisons `hypot(dx, dy) <= r` are embedded squared
(`dx^2 + dy^2 <= r^2`, both sides nonnegative).

Calls into Python's random module are embedded as explicit oracle arguments
(structure `Rng`): `random.choice` over a list becomes an index draw used
modulo the list length, `random.shuffle` becomes a list-transformation
argument (theorems constrain it exactly as the library guarantees: its output
draws from its input), and `random.randint` / `random.uniform` /
`random.random` become plain arguments.

Purely cosmetic state that no claim mentions (the particle list fed by
`burst_particles`, holding random screen-space floats) is not modelled;
`burst_particles` touches no other field of the game state.
-/

/-- Grid cell: a pair of integer coordinates (column, row). -/
abbrev Pos := Int × Int

/-- Helper for `intRange`: the `n` consecutive integers starting at `a`. -/
def intRangeAux (a : Int) : Nat → List Int
  | 0 => []
  | n + 1 => a :: intRangeAux (a + 1) n

/-- Integer interval `[a, b)` as a list, mirroring Python `range(a, b)`. -/
def intRange (a b : Int) : List Int := intRangeAux a (b - a).toNat

namespace Explodo

/-- Constant `GRID_W` from `hungry_caterpillar_explodo.py`. -/
def GRID_W : Int := 28

/-- Constant `GRID_H` from `hungry_caterpillar_explodo.py`. -/
def GRID_H : Int := 20

/-- Constant `NITRO_MIN_FUSE` (seconds). -/
def NITRO_MIN_FUSE : ℚ := 6

/-- Constant `NITRO_MAX_FUSE` (seconds). -/
def NITRO_MAX_FUSE : ℚ := 10

/-- Constant `NITRO_BLAST_RADIUS = 2.4` grid tiles (Euclidean). -/
def NITRO_BLAST_RADIUS : ℚ := 12 / 5

/-- Constant `NITRO_DEBRIS_MIN`. -/
def NITRO_DEBRIS_MIN : Nat := 6

/-- Constant `NITRO_DEBRIS_MAX`. -/
def NITRO_DEBRIS_MAX : Nat := 12

/-- Constant `SHAKE_POWER`. -/
def SHAKE_POWER : ℚ := 10

/-- Function `within_bounds(x, y)`: `0 <= x < GRID_W and 0 <= y < GRID_H`. -/
def within_bounds (x y : Int) : Bool :=
  decide (0 ≤ x ∧ x < GRID_W ∧ 0 ≤ y ∧ y < GRID_H)

/-- Squared Euclidean distance between two cells; the source's
`dist(a, b) = math.hypot(...)` compares as `dist a b ≤ r ↔ sqDist a b ≤ r²`. -/
def sqDist (a b : Pos) : Int :=
  (a.1 - b.1) ^ 2 + (a.2 - b.2) ^ 2

/-- Lethality test `dist(center, head) <= NITRO_BLAST_RADIUS` of
`trigger_explosion`, in exact squared form: for a grid-cell distance `d`,
`d ≤ 2.4 ↔ d² ≤ 5.76 ↔ 25·d² ≤ 144` (the squared distance is an integer, so
no float rounding of 2.4 can cross this threshold). -/
def withinBlast (d2 : Int) : Bool :=
  decide (25 * d2 ≤ 144)

/-- Annulus test `r2 * 0.6 <= d2 <= r2 * 1.3` of `ring_cells` with
`r2 = 2.4² = 144/25`, in exact scaled-integer form:
`144/25 · 6/10 = 432/125` and `144/25 · 13/10 = 936/125`. -/
def inAnnulus (d2 : Int) : Bool :=
  decide (432 ≤ 125 * d2 ∧ 125 * d2 ≤ 936)

/-- Food kinds: the source uses the string tags `"leaf"` and `"nitro"`. -/
inductive FoodKind where
  | leaf
  | nitro
deriving DecidableEq

/-- Dataclass `Food`: position, kind, and the nitro fuse fields. -/
structure Food where
  pos : Pos
  kind : FoodKind
  fuse : ℚ := 0
  fuse_total : ℚ := 0
deriving DecidableEq

/-- Dataclass `Explosion` (animation record appended by `trigger_explosion`). -/
structure Explosion where
  center : Pos
  radius_tiles : ℚ
  t : ℚ := 0
  duration : ℚ := 45 / 100
deriving DecidableEq

/-- Dataclass `GameState`.  The snake deque is a list in deque order: index 0
is the tail (the `popleft` end), the last element is the head (`snake[-1]`,
the `append` end).  `rocks` is the obstacle set, kept as a duplicate-free
list (insertion happens only under a freshness check, mirroring Python
`set.add`).  The cosmetic `particles` list is not modelled. -/
structure GameState where
  snake : List Pos := []
  dir : Int × Int := (1, 0)
  grow : Nat := 0
  rocks : List Pos := []
  food : Option Food := none
  score : Nat := 0
  best : Nat := 0
  alive : Bool := true
  paused : Bool := false
  explosions : List Explosion := []
  shake : ℚ := 0
deriving DecidableEq

/-- Oracle for the random draws a single update can make: the
`random.randint` debris count, the `random.shuffle` permutation, the
`random.choice` index for food placement, the `random.random()` nitro roll,
and the `random.uniform` fuse value. -/
structure Rng where
  debrisN : Nat
  shuffle : List Pos → List Pos
  spawnK : Nat
  spawnNitro : Bool
  spawnFuse : ℚ

/-- Head cell `gs.snake[-1]`; callers guarantee a nonempty snake. -/
def headPos (gs : GameState) : Pos :=
  gs.snake.getLast?.getD (0, 0)

/-- Cell the head moves into this tick: head plus direction vector. -/
def newHead (gs : GameState) : Pos :=
  ((headPos gs).1 + gs.dir.1, (headPos gs).2 + gs.dir.2)

/-- Occupancy test used by `empty_cells`: snake body, rocks, or the food. -/
def occupiedCell (gs : GameState) (p : Pos) : Bool :=
  decide (p ∈ gs.snake) || decide (p ∈ gs.rocks) ||
    (match gs.food with
     | some f => decide (p = f.pos)
     | none => false)

/-- Function `empty_cells`: all grid cells not occupied, row by row
(`y` outer, as in the source's list comprehension). -/
def empty_cells (gs : GameState) : List Pos :=
  (intRange 0 GRID_H).flatMap fun y =>
    (intRange 0 GRID_W).filterMap fun x =>
      if occupiedCell gs (x, y) then none else some (x, y)

/-- Function `rand_empty`: `random.choice(cells) if cells else None`, with
the draw embedded as an index `k` taken modulo the list length. -/
def rand_empty (gs : GameState) (k : Nat) : Option Pos :=
  let cells := empty_cells gs
  if cells.isEmpty then none else cells.get? (k % cells.length)

/-- Function `spawn_food(gs, force_leaf)`: place food on a random empty cell;
no-op when no empty cell exists; nitro kind iff not forced leaf and the
random roll came up nitro. -/
def spawn_food (gs : GameState) (force_leaf : Bool) (rng : Rng) : GameState :=
  match rand_empty gs rng.spawnK with
  | none => gs
  | some pos =>
    if force_leaf = false ∧ rng.spawnNitro = true then
      { gs with food := some { pos := pos, kind := .nitro,
                               fuse := rng.spawnFuse, fuse_total := rng.spawnFuse } }
    else
      { gs with food := some { pos := pos, kind := .leaf } }

/-- Function `ring_cells(center, radius)`: cells of the debris annulus, in
bounds and with squared distance in `[0.6·r², 1.3·r²]`.  The scan window uses
`math.ceil(radius) = 3` for the radius 2.4. -/
def ring_cells (center : Pos) : List Pos :=
  let c : Int := 3
  (intRange (center.2 - c - 1) (center.2 + c + 2)).flatMap fun y =>
    (intRange (center.1 - c - 1) (center.1 + c + 2)).filterMap fun x =>
      if within_bounds x y = true ∧ inAnnulus (sqDist (x, y) center) = true
      then some (x, y) else none

/-- Debris loop of `trigger_explosion`: walk the shuffled candidate prefix,
adding each cell that is not on the snake, not already a rock, and in
bounds. -/
def addDebris (snake : List Pos) (rocks : List Pos) : List Pos → List Pos
  | [] => rocks
  | p :: ps =>
    if p ∉ snake ∧ p ∉ rocks ∧ within_bounds p.1 p.2 = true then
      addDebris snake (p :: rocks) ps
    else
      addDebris snake rocks ps

/-- Function `trigger_explosion(gs, center)`: bump screen shake, append the
explosion animation record, add a random debris subset of the annulus, and
kill the snake when its head is within the blast radius of the center
(Euclidean, embedded squared).  The shuffled annulus candidates and the
debris count are oracle arguments. -/
def trigger_explosion (gs : GameState) (center : Pos) (debrisN : Nat)
    (shuffled : List Pos) : GameState :=
  let gs1 := { gs with
    shake := max gs.shake SHAKE_POWER,
    explosions := gs.explosions ++
      [({ center := center, radius_tiles := NITRO_BLAST_RADIUS } : Explosion)] }
  let gs2 := { gs1 with rocks := addDebris gs1.snake gs1.rocks (shuffled.take debrisN) }
  if withinBlast (sqDist center (headPos gs2)) = true then
    { gs2 with alive := false }
  else gs2

/-- Body-movement part of `step_snake`: append the new head; if growing,
consume one growth unit and keep the tail, else `popleft` the tail. -/
def moveBody (gs : GameState) (nh : Pos) : GameState :=
  let gs1 := { gs with snake := gs.snake ++ [nh] }
  if 0 < gs1.grow then { gs1 with grow := gs1.grow - 1 }
  else { gs1 with snake := gs1.snake.drop 1 }

/-- Food-consumption part of `step_snake`: if there is food on the new head,
score it, bank growth, for nitro also trigger the explosion at the new head,
then respawn food.  (`burst_particles` only touches the unmodelled cosmetic
particle list.) -/
def eatFood (gs : GameState) (nh : Pos) (rng : Rng) : GameState :=
  match gs.food with
  | none => gs
  | some f =>
    if nh = f.pos then
      match f.kind with
      | .leaf =>
        spawn_food { gs with grow := gs.grow + 1, score := gs.score + 10 } false rng
      | .nitro =>
        spawn_food
          (trigger_explosion { gs with grow := gs.grow + 2, score := gs.score + 25 }
            nh rng.debrisN (rng.shuffle (ring_cells nh)))
          false rng
    else gs

/-- Function `step_snake(gs)`: one discrete tick.  Dead or paused states are
left untouched; an out-of-bounds, body, or rock target kills without moving;
otherwise the body advances and food is resolved. -/
def step_snake (gs : GameState) (rng : Rng) : GameState :=
  if gs.alive = false ∨ gs.paused = true then gs
  else
    let nh := newHead gs
    if within_bounds nh.1 nh.2 = false then { gs with alive := false }
    else if nh ∈ gs.snake then { gs with alive := false }
    else if nh ∈ gs.rocks then { gs with alive := false }
    else eatFood (moveBody gs nh) nh rng

/-- Function `update_food(gs, dt)`: tick the nitro fuse down by `dt`; on
expiry, detonate at the food's cell, clear the food, and respawn with
`force_leaf=True`. -/
def update_food (gs : GameState) (dt : ℚ) (rng : Rng) : GameState :=
  match gs.food with
  | none => gs
  | some f =>
    match f.kind with
    | .nitro =>
      let f1 := { f with fuse := f.fuse - dt }
      if f1.fuse ≤ 0 then
        let gs1 := trigger_explosion { gs with food := some f1 } f1.pos
          rng.debrisN (rng.shuffle (ring_cells f1.pos))
        spawn_food { gs1 with food := none } true rng
      else { gs with food := some f1 }
    | .leaf => gs

/-- Concrete random oracle used for the concrete evaluation theorems: debris
count 0, shuffle discarding everything, first empty cell, always leaf. -/
def rng0 : Rng := ⟨0, fun _ => [], 0, false, 0⟩

/-- Concrete state for the tail-follow scenario: four-cell snake cycling,
head `(6,5)` about to move onto the tail cell `(5,5)` on a non-growing
tick. -/
def gsTailFollow : GameState :=
  { snake := [(5, 5), (5, 6), (6, 6), (6, 5)], dir := (-1, 0), grow := 0 }

/-- Concrete state for the plain-food scenario of the spec: one-segment
snake at `(5,5)` heading right onto a leaf at `(6,5)`. -/
def gsLeafEat : GameState :=
  { snake := [(5, 5)], dir := (1, 0), grow := 0,
    food := some { pos := (6, 5), kind := .leaf } }

/-- Concrete live state with no food and a free cell ahead. -/
def gsFree : GameState := { snake := [(5, 5)], dir := (1, 0) }

/-- Concrete live state about to step out of bounds at `(-1, 5)`. -/
def gsOob : GameState := { snake := [(0, 5)], dir := (-1, 0) }

/-- Concrete state whose head `(5,5)` is one tile from the explosion
center used in the lethality witness. -/
def gsNear : GameState := { snake := [(5, 5)] }

/-- Concrete state holding a nitro food at `(3,3)` with 0.1 s of fuse. -/
def gsFuse : GameState :=
  { snake := [(5, 5)],
    food := some { pos := (3, 3), kind := .nitro, fuse := 1 / 10, fuse_total := 1 / 10 } }

/-- Concrete state used for the debris witness: bare snake, no rocks. -/
def gsRing : GameState := { snake := [(5, 5)], rocks := [] }

/-- Concrete live state about to eat a nitro food at `(6,5)`. -/
def gsNitroEat : GameState :=
  { snake := [(5, 5)], dir := (1, 0), grow := 0,
    food := some { pos := (6, 5), kind := .nitro, fuse := 5, fuse_total := 5 } }

/-- Every cell of the explodo grid, row by row. -/
def gridAll : List Pos :=
  (intRange 0 GRID_H).flatMap fun y => (intRange 0 GRID_W).map fun x => (x, y)

/-- Concrete state in which every grid cell is occupied (all cells are
rocks), so no food placement exists. -/
def fullState : GameState := { snake := [(0, 0)], rocks := gridAll }

end Explodo

namespace SnakeGame

/-- Constant `WINDOW_WIDTH` from `snake_game.py`. -/
def WINDOW_WIDTH : Int := 600

/-- Constant `WINDOW_HEIGHT` from `snake_game.py`. -/
def WINDOW_HEIGHT : Int := 600

/-- Constant `GRID_SIZE` (pixels per cell). -/
def GRID_SIZE : Int := 20

/-- Constant `GRID_WIDTH = WINDOW_WIDTH // GRID_SIZE`. -/
def GRID_WIDTH : Int := WINDOW_WIDTH / GRID_SIZE

/-- Constant `GRID_HEIGHT = WINDOW_HEIGHT // GRID_SIZE`. -/
def GRID_HEIGHT : Int := WINDOW_HEIGHT / GRID_SIZE

/-- Enum `Direction`. -/
inductive Direction where
  | UP
  | DOWN
  | LEFT
  | RIGHT
deriving DecidableEq

/-- Unit vector carried by each `Direction` enum member. -/
def Direction.value : Direction → Int × Int
  | .UP => (0, -1)
  | .DOWN => (0, 1)
  | .LEFT => (-1, 0)
  | .RIGHT => (1, 0)

/-- Class `Snake` state: body stored head-first (`body[0]` is the head),
current direction, and the one-shot grow flag. -/
structure Snake where
  body : List Pos
  direction : Direction
  grow : Bool
deriving DecidableEq

/-- Head `self.body[0]`; callers guarantee a nonempty body. -/
def Snake.headCell (s : Snake) : Pos :=
  s.body.headD (0, 0)

/-- Method `Snake.move`: insert the new head at index 0; unless growing, pop
the tail; a pending grow flag is consumed.  The new head is inserted
unconditionally, even when it lies outside the grid. -/
def Snake.move (s : Snake) : Snake :=
  let nh : Pos := (s.headCell.1 + s.direction.value.1, s.headCell.2 + s.direction.value.2)
  if s.grow = false then { s with body := (nh :: s.body).dropLast }
  else { s with body := nh :: s.body, grow := false }

/-- Method `Snake.change_direction`: adopt the requested direction unless its
vector is the exact negation of the current one. -/
def Snake.change_direction (s : Snake) (nd : Direction) : Snake :=
  if s.direction.value ≠ (-nd.value.1, -nd.value.2) then { s with direction := nd }
  else s

/-- Method `Snake.check_collision`: head outside the grid, or head occurring
again in `body[1:]` (the body *after* `move` already popped the tail). -/
def Snake.check_collision (s : Snake) : Bool :=
  if s.headCell.1 < 0 ∨ s.headCell.1 ≥ GRID_WIDTH ∨
      s.headCell.2 < 0 ∨ s.headCell.2 ≥ GRID_HEIGHT then true
  else if s.headCell ∈ s.body.tail then true
  else false

/-- Method `Snake.eat_food`: when the head sits on the food, set the grow
flag and report the hit. -/
def Snake.eat_food (s : Snake) (food_pos : Pos) : Snake × Bool :=
  if s.headCell = food_pos then ({ s with grow := true }, true) else (s, false)

/-- Reverse of a direction (the spec's `opposite(d)`). -/
def opposite : Direction → Direction
  | .UP => .DOWN
  | .DOWN => .UP
  | .LEFT => .RIGHT
  | .RIGHT => .LEFT

/-- Every cell the `random.randint` pair in `Food.generate_position` can
draw: the full grid. -/
def allCells : List Pos :=
  (intRange 0 GRID_WIDTH).flatMap fun x =>
    (intRange 0 GRID_HEIGHT).map fun y => (x, y)

/-- Method `Food.generate_position`: the source is an unbounded `while True`
loop that keeps drawing a random in-grid cell until one misses the snake
body.  It is embedded over an explicit stream of drawn candidates: the
result is the first candidate off the body, and `none` when the stream runs
out — the source loop would still be spinning at that point. -/
def generate_position (body : List Pos) : List Pos → Option Pos
  | [] => none
  | c :: cs => if c ∉ body then some c else generate_position body cs

/-- Concrete one-segment snake heading right, for the direction-change
witness. -/
def sBase : Snake := ⟨[(15, 15)], .RIGHT, false⟩

/-- Concrete three-segment snake heading right, for the double-turn
reversal scenario. -/
def sTriple : Snake := ⟨[(5, 5), (4, 5), (3, 5)], .RIGHT, false⟩

/-- Concrete four-segment snake whose head `(6,5)` is about to move onto its
own tail cell `(5,5)` (basic variant, head-first order). -/
def sTailFollow : Snake := ⟨[(6, 5), (6, 6), (5, 6), (5, 5)], .LEFT, false⟩

/-- Concrete snake at the left wall, about to move to `(-1, 5)`. -/
def sAtWall : Snake := ⟨[(0, 5)], .LEFT, false⟩

end SnakeGame

theorem mem_intRangeAux {a x : Int} {n : Nat} :
    x ∈ intRangeAux a n ↔ a ≤ x ∧ x < a + n := by
  induction n generalizing a with
  | zero => simp [intRangeAux]
  | succ n ih =>
    simp only [intRangeAux, List.mem_cons, ih]
    constructor
    · rintro (rfl | ⟨h1, h2⟩) <;> omega
    · rintro ⟨h1, h2⟩
      by_cases hx : x = a
      · exact Or.inl hx
      · exact Or.inr ⟨by omega, by omega⟩

theorem mem_intRange {a b x : Int} : x ∈ intRange a b ↔ a ≤ x ∧ x < b := by
  rw [intRange, mem_intRangeAux]
  omega

namespace Explodo

theorem spawn_food_alive (gs : GameState) (fl : Bool) (rng : Rng) :
    (spawn_food gs fl rng).alive = gs.alive := by
  unfold spawn_food
  split
  · rfl
  · split <;> rfl

theorem spawn_food_score (gs : GameState) (fl : Bool) (rng : Rng) :
    (spawn_food gs fl rng).score = gs.score := by
  unfold spawn_food
  split
  · rfl
  · split <;> rfl

theorem spawn_food_grow (gs : GameState) (fl : Bool) (rng : Rng) :
    (spawn_food gs fl rng).grow = gs.grow := by
  unfold spawn_food
  split
  · rfl
  · split <;> rfl

theorem spawn_food_explosions (gs : GameState) (fl : Bool) (rng : Rng) :
    (spawn_food gs fl rng).explosions = gs.explosions := by
  unfold spawn_food
  split
  · rfl
  · split <;> rfl

theorem spawn_food_true_food (gs : GameState) (rng : Rng) :
    (spawn_food gs true rng).food = gs.food ∨
      ∃ p, (spawn_food gs true rng).food = some { pos := p, kind := FoodKind.leaf } := by
  unfold spawn_food
  split
  · exact Or.inl rfl
  · split
    · next h => exact absurd h.1 (by simp)
    · next p _ _ => exact Or.inr ⟨p, rfl⟩

theorem spawn_food_none_or_leaf (gs : GameState) (rng : Rng) (h : gs.food = none) :
    (spawn_food gs true rng).food = none ∨
      ∃ p, (spawn_food gs true rng).food = some { pos := p, kind := FoodKind.leaf } := by
  rcases spawn_food_true_food gs rng with h2 | h2
  · rw [h2, h]
    exact Or.inl rfl
  · exact Or.inr h2

theorem trigger_explosion_snake (gs : GameState) (c : Pos) (n : Nat) (sh : List Pos) :
    (trigger_explosion gs c n sh).snake = gs.snake := by
  simp only [trigger_explosion]
  split <;> rfl

theorem trigger_explosion_score (gs : GameState) (c : Pos) (n : Nat) (sh : List Pos) :
    (trigger_explosion gs c n sh).score = gs.score := by
  simp only [trigger_explosion]
  split <;> rfl

theorem trigger_explosion_grow (gs : GameState) (c : Pos) (n : Nat) (sh : List Pos) :
    (trigger_explosion gs c n sh).grow = gs.grow := by
  simp only [trigger_explosion]
  split <;> rfl

theorem trigger_explosion_food (gs : GameState) (c : Pos) (n : Nat) (sh : List Pos) :
    (trigger_explosion gs c n sh).food = gs.food := by
  simp only [trigger_explosion]
  split <;> rfl

theorem trigger_explosion_alive (gs : GameState) (c : Pos) (n : Nat) (sh : List Pos) :
    (trigger_explosion gs c n sh).alive =
      if withinBlast (sqDist c (headPos gs)) = true then false else gs.alive := by
  simp only [trigger_explosion, headPos]
  split <;> rfl

theorem trigger_explosion_explosions (gs : GameState) (c : Pos) (n : Nat) (sh : List Pos) :
    (trigger_explosion gs c n sh).explosions =
      gs.explosions ++ [({ center := c, radius_tiles := NITRO_BLAST_RADIUS } : Explosion)] := by
  simp only [trigger_explosion]
  split <;> rfl

theorem trigger_explosion_rocks (gs : GameState) (c : Pos) (n : Nat) (sh : List Pos) :
    (trigger_explosion gs c n sh).rocks = addDebris gs.snake gs.rocks (sh.take n) := by
  simp only [trigger_explosion]
  split <;> rfl

theorem trigger_explosion_alive_of_head (gs : GameState) (c : Pos) (n : Nat) (sh : List Pos)
    (h : headPos gs = c) : (trigger_explosion gs c n sh).alive = false := by
  rw [trigger_explosion_alive, h]
  simp [sqDist, withinBlast]

theorem moveBody_alive (gs : GameState) (nh : Pos) : (moveBody gs nh).alive = gs.alive := by
  simp only [moveBody]
  split <;> rfl

theorem moveBody_food (gs : GameState) (nh : Pos) : (moveBody gs nh).food = gs.food := by
  simp only [moveBody]
  split <;> rfl

theorem moveBody_score (gs : GameState) (nh : Pos) : (moveBody gs nh).score = gs.score := by
  simp only [moveBody]
  split <;> rfl

theorem moveBody_grow (gs : GameState) (nh : Pos) :
    (moveBody gs nh).grow = if 0 < gs.grow then gs.grow - 1 else gs.grow := by
  simp only [moveBody]
  split <;> rfl

theorem headPos_moveBody (gs : GameState) (nh : Pos) (hs : gs.snake ≠ []) :
    headPos (moveBody gs nh) = nh := by
  rcases hsn : gs.snake with _ | ⟨a, t⟩
  · exact absurd hsn hs
  · simp only [moveBody, headPos, hsn]
    split
    · show (a :: (t ++ [nh])).getLast?.getD (0, 0) = nh
      rw [← List.cons_append, List.getLast?_concat]
      rfl
    · show ((a :: (t ++ [nh])).drop 1).getLast?.getD (0, 0) = nh
      rw [List.drop_one, List.tail_cons, List.getLast?_concat]
      rfl

theorem eatFood_alive (gs : GameState) (nh : Pos) (rng : Rng)
    (hf : ∀ f, gs.food = some f → f.pos = nh → f.kind = FoodKind.leaf) :
    (eatFood gs nh rng).alive = gs.alive := by
  unfold eatFood
  split
  · rfl
  · next f heq =>
    split
    · next hpos =>
      rcases hkind : f.kind with _ | _
      · simp only [hkind, spawn_food_alive]
      · exact absurd hkind (by rw [hf f heq hpos.symm]; simp)
    · rfl

theorem mem_ring_cells {c p : Pos} (h : p ∈ ring_cells c) :
    within_bounds p.1 p.2 = true ∧ inAnnulus (sqDist p c) = true := by
  unfold ring_cells at h
  simp only [List.mem_flatMap, List.mem_filterMap] at h
  obtain ⟨y, hy, x, hx, hif⟩ := h
  split at hif
  · next hcond =>
    cases hif
    exact hcond
  · cases hif

theorem mem_addDebris {snake rocks ps : List Pos} {q : Pos}
    (hq : q ∈ addDebris snake rocks ps) :
    q ∈ rocks ∨
      (q ∈ ps ∧ q ∉ snake ∧ q ∉ rocks ∧ within_bounds q.1 q.2 = true) := by
  induction ps generalizing rocks with
  | nil => exact Or.inl hq
  | cons p ps ih =>
    rw [addDebris] at hq
    split at hq
    · next hcond =>
      rcases ih hq with hin | ⟨hps, hsn, hro, hbd⟩
      · rcases List.mem_cons.1 hin with rfl | hin
        · exact Or.inr ⟨List.mem_cons_self _ _, hcond.1, hcond.2.1, hcond.2.2⟩
        · exact Or.inl hin
      · exact Or.inr ⟨List.mem_cons_of_mem _ hps, hsn,
          fun hc => hro (List.mem_cons_of_mem _ hc), hbd⟩
    · rcases ih hq with hin | ⟨hps, hsn, hro, hbd⟩
      · exact Or.inl hin
      · exact Or.inr ⟨List.mem_cons_of_mem _ hps, hsn, hro, hbd⟩

theorem spawn_food_noop (gs : GameState) (fl : Bool) (rng : Rng)
    (h : empty_cells gs = []) : spawn_food gs fl rng = gs := by
  unfold spawn_food rand_empty
  rw [h]
  simp

theorem mem_gridAll {p : Pos} (h1 : 0 ≤ p.1) (h2 : p.1 < GRID_W)
    (h3 : 0 ≤ p.2) (h4 : p.2 < GRID_H) : p ∈ gridAll := by
  unfold gridAll
  rw [List.mem_flatMap]
  exact ⟨p.2, mem_intRange.2 ⟨h3, h4⟩,
    List.mem_map.2 ⟨p.1, mem_intRange.2 ⟨h1, h2⟩, rfl⟩⟩

theorem mem_empty_cells {gs : GameState} {p : Pos} (h : p ∈ empty_cells gs) :
    (0 ≤ p.1 ∧ p.1 < GRID_W ∧ 0 ≤ p.2 ∧ p.2 < GRID_H) ∧ occupiedCell gs p = false := by
  unfold empty_cells at h
  simp only [List.mem_flatMap, List.mem_filterMap] at h
  obtain ⟨y, hy, x, hx, hif⟩ := h
  rw [mem_intRange] at hy hx
  split at hif
  · cases hif
  · next hocc =>
    cases hif
    exact ⟨⟨hx.1, hx.2, hy.1, hy.2⟩, by simpa using hocc⟩

theorem empty_cells_fullState : empty_cells fullState = [] := by
  rw [List.eq_nil_iff_forall_not_mem]
  intro p hp
  obtain ⟨⟨h1, h2, h3, h4⟩, hocc⟩ := mem_empty_cells hp
  have hrock : p ∈ fullState.rocks := mem_gridAll h1 h2 h3 h4
  unfold occupiedCell at hocc
  simp only [Bool.or_eq_false_iff, decide_eq_false_iff_not] at hocc
  exact hocc.1.2 hrock

end Explodo

namespace SnakeGame

theorem generate_position_none_of_covered {body : List Pos} :
    ∀ cands : List Pos, (∀ c ∈ cands, c ∈ body) →
      generate_position body cands = none := by
  intro cands h
  induction cands with
  | nil => rfl
  | cons c cs ih =>
    rw [generate_position]
    rw [if_neg (by simp [h c (by simp)])]
    exact ih (fun d hd => h d (by simp [hd]))

end SnakeGame

set_option maxRecDepth 40000

/-- Claim C1, counterexample.  In the explodo variant, on a live, unpaused,
non-growing tick, moving the head onto the cell currently held by the tail
*does* set `alive` to false: in `gsTailFollow` the head `(6,5)` moves onto
the tail cell `(5,5)` (the deque front, about to be vacated since
`grow = 0`), yet `step_snake` reports death — the self-collision check
`new_head in gs.snake` runs against the full previous body before the tail
is popped. -/
theorem c1_counterexample :
    Explodo.gsTailFollow.grow = 0 ∧
    Explodo.gsTailFollow.snake.head? = some (5, 5) ∧
    Explodo.newHead Explodo.gsTailFollow = (5, 5) ∧
    (Explodo.step_snake Explodo.gsTailFollow Explodo.rng0).alive = false := by
  decide

/-- Claim C1, amended.  In the explodo variant, for every advance on a live,
unpaused state whose target cell is in bounds, not a rock, and not holding
nitro food, the snake dies exactly when the new head cell lies anywhere in
the full previous body — *including* the tail cell about to be vacated on a
non-growing tick.  (The basic variant pops the tail before its collision
check, so only there is the tail cell effectively excluded.) -/
theorem c1_self_collision_includes_tail (gs : Explodo.GameState) (rng : Explodo.Rng)
    (ha : gs.alive = true) (hp : gs.paused = false)
    (hb : Explodo.within_bounds (Explodo.newHead gs).1 (Explodo.newHead gs).2 = true)
    (hr : Explodo.newHead gs ∉ gs.rocks)
    (hf : ∀ f, gs.food = some f → f.pos = Explodo.newHead gs →
      f.kind = Explodo.FoodKind.leaf) :
    ((Explodo.step_snake gs rng).alive = false ↔ Explodo.newHead gs ∈ gs.snake) := by
  unfold Explodo.step_snake
  rw [if_neg (by simp [ha, hp])]
  simp only
  rw [if_neg (by simp [hb])]
  by_cases hmem : Explodo.newHead gs ∈ gs.snake
  · rw [if_pos hmem]
    simp [hmem]
  · rw [if_neg hmem, if_neg hr]
    have halive : (Explodo.eatFood (Explodo.moveBody gs (Explodo.newHead gs))
        (Explodo.newHead gs) rng).alive = gs.alive := by
      rw [Explodo.eatFood_alive, Explodo.moveBody_alive]
      intro f hfe hfp
      exact hf f (by rw [← Explodo.moveBody_food gs (Explodo.newHead gs)]; exact hfe) hfp
    rw [halive, ha]
    simp [hmem]

/-- Claim C1, witness: the amended theorem applied to a concrete free-field
state, where the new head `(6,5)` is not in the one-cell body, so the
advance does not report a self-collision death. -/
theorem c1_self_collision_includes_tail_witness :
    ((Explodo.step_snake Explodo.gsFree Explodo.rng0).alive = false ↔
      Explodo.newHead Explodo.gsFree ∈ Explodo.gsFree.snake) :=
  c1_self_collision_includes_tail Explodo.gsFree Explodo.rng0 rfl rfl
    (by decide) (by decide) (by intro f hfe _; simp [Explodo.gsFree] at hfe)

/-- Claim C2, counterexample.  In the basic variant (`snake_game.py`, cited
by the claim), `Snake.move` appends the out-of-bounds head before any wall
check: moving left from `(0,5)` puts `(-1,5)` into the body — the body is
mutated and the out-of-bounds head *is* appended; `check_collision` only
reports the wall hit afterwards. -/
theorem c2_counterexample :
    (SnakeGame.Snake.move SnakeGame.sAtWall).body = [(-1, 5)] ∧
    (SnakeGame.Snake.move SnakeGame.sAtWall).body ≠ SnakeGame.sAtWall.body ∧
    SnakeGame.Snake.check_collision (SnakeGame.Snake.move SnakeGame.sAtWall) = true := by
  decide

/-- Claim C2, amended.  In the explodo variant the claim holds exactly: when
the target cell of a live, unpaused advance is out of bounds, the whole
resulting state equals the input state with only `alive` set to false — the
body is untouched and the out-of-bounds head is never appended.  (In the
basic variant `move` appends the out-of-bounds head and pops the tail, and
the game-over flag is set by the `check_collision` call in the same tick.) -/
theorem c2_oob_no_mutation (gs : Explodo.GameState) (rng : Explodo.Rng)
    (ha : gs.alive = true) (hp : gs.paused = false)
    (hoob : Explodo.within_bounds (Explodo.newHead gs).1 (Explodo.newHead gs).2 = false) :
    Explodo.step_snake gs rng = { gs with alive := false } := by
  unfold Explodo.step_snake
  rw [if_neg (by simp [ha, hp])]
  simp only
  rw [if_pos hoob]

/-- Claim C2, witness: the amended theorem applied to the concrete state
`gsOob`, whose head `(0,5)` is about to move to `(-1,5)`. -/
theorem c2_oob_no_mutation_witness :
    Explodo.step_snake Explodo.gsOob Explodo.rng0 = { Explodo.gsOob with alive := false } :=
  c2_oob_no_mutation Explodo.gsOob Explodo.rng0 rfl rfl (by decide)

/-- Claim C3, counterexample.  One advance from snake `[(5,5)]` heading
right onto a plain (leaf) food at `(6,5)` yields a body of length 1 —
`[(6,5)]` in deque order, not the claimed two-segment `[(6,5),(5,5)]` —
and a grow-counter of 1, not 0: the tail is popped before the food check,
and growth is only banked. -/
theorem c3_counterexample :
    (Explodo.step_snake Explodo.gsLeafEat Explodo.rng0).snake = [(6, 5)] ∧
    (Explodo.step_snake Explodo.gsLeafEat Explodo.rng0).snake ≠ [(5, 5), (6, 5)] ∧
    (Explodo.step_snake Explodo.gsLeafEat Explodo.rng0).grow = 1 := by
  decide

/-- Claim C3, amended.  In the scenario (snake `[(5,5)]`, direction right,
plain food at `(6,5)` worth 10 points and 1 growth), a single advance yields
body `[(6,5)]` of length 1, score 10, grow-counter 1 and alive; the banked
growth materialises on the *next* advance, after which the body is
`[(6,5),(7,5)]` of length 2 with grow-counter 0. -/
theorem c3_scenario_amended :
    (Explodo.step_snake Explodo.gsLeafEat Explodo.rng0).snake = [(6, 5)] ∧
    (Explodo.step_snake Explodo.gsLeafEat Explodo.rng0).score = 10 ∧
    (Explodo.step_snake Explodo.gsLeafEat Explodo.rng0).grow = 1 ∧
    (Explodo.step_snake Explodo.gsLeafEat Explodo.rng0).alive = true ∧
    (Explodo.step_snake (Explodo.step_snake Explodo.gsLeafEat Explodo.rng0)
        Explodo.rng0).snake = [(6, 5), (7, 5)] ∧
    (Explodo.step_snake (Explodo.step_snake Explodo.gsLeafEat Explodo.rng0)
        Explodo.rng0).grow = 0 := by
  decide

/-- Claim C4, confirmed.  On a live state, `trigger_explosion` sets `alive`
to false exactly when the snake's head lies within the blast radius of the
center (Euclidean distance at most 2.4, embedded as the exact squared test
`withinBlast`); when the head is strictly farther, `alive` stays true,
whatever the debris randomness. -/
theorem c4_explosion_lethality (gs : Explodo.GameState) (c : Pos) (n : Nat)
    (sh : List Pos) (ha : gs.alive = true) :
    ((Explodo.trigger_explosion gs c n sh).alive = false ↔
      Explodo.withinBlast (Explodo.sqDist c (Explodo.headPos gs)) = true) := by
  rw [Explodo.trigger_explosion_alive, ha]
  by_cases h : Explodo.withinBlast (Explodo.sqDist c (Explodo.headPos gs)) = true <;> simp [h]

/-- Claim C4, witness: head `(5,5)` is one tile from center `(5,6)`
(distance 1 ≤ 2.4), so the explosion kills. -/
theorem c4_explosion_lethality_witness :
    (Explodo.trigger_explosion Explodo.gsNear (5, 6) 0 []).alive = false :=
  (c4_explosion_lethality Explodo.gsNear (5, 6) 0 [] rfl).mpr (by decide)

/-- Claim C5, confirmed.  For nitro food, `update_food` decrements the fuse
by `dt` (keeping the food when the remainder is positive); when the
remainder reaches zero or below, an explosion is recorded at the food's
cell, the food is cleared, and the replacement spawn is forced safe: the
resulting food is either absent (full grid) or a leaf. -/
theorem c5_fuse_tick (gs : Explodo.GameState) (dt : ℚ) (rng : Explodo.Rng)
    (f : Explodo.Food) (hf : gs.food = some f)
    (hk : f.kind = Explodo.FoodKind.nitro) :
    (¬ f.fuse - dt ≤ 0 →
      Explodo.update_food gs dt rng =
        { gs with food := some { f with fuse := f.fuse - dt } }) ∧
    (f.fuse - dt ≤ 0 →
      (∃ e ∈ (Explodo.update_food gs dt rng).explosions, e.center = f.pos) ∧
      ((Explodo.update_food gs dt rng).food = none ∨
        ∃ p, (Explodo.update_food gs dt rng).food =
          some { pos := p, kind := Explodo.FoodKind.leaf })) := by
  obtain ⟨fp, fk, ffu, fft⟩ := f
  simp only at hk
  subst hk
  unfold Explodo.update_food
  rw [hf]
  simp only
  constructor
  · intro hpos
    rw [if_neg hpos]
  · intro hneg
    rw [if_pos hneg]
    constructor
    · rw [Explodo.spawn_food_explosions]
      show ∃ e ∈ (Explodo.trigger_explosion
          { gs with food := some { pos := fp, kind := Explodo.FoodKind.nitro,
                                   fuse := ffu - dt, fuse_total := fft } }
          fp rng.debrisN (rng.shuffle (Explodo.ring_cells fp))).explosions,
        e.center = fp
      rw [Explodo.trigger_explosion_explosions]
      exact ⟨{ center := fp, radius_tiles := Explodo.NITRO_BLAST_RADIUS }, by simp, rfl⟩
    · exact Explodo.spawn_food_none_or_leaf _ rng rfl

/-- Claim C5, witness: nitro food at `(3,3)` with fuse 0.1 s ticked by
0.2 s detonates at `(3,3)` and leaves no food or a leaf. -/
theorem c5_fuse_tick_witness :
    (∃ e ∈ (Explodo.update_food Explodo.gsFuse (2 / 10) Explodo.rng0).explosions,
      e.center = (3, 3)) ∧
    ((Explodo.update_food Explodo.gsFuse (2 / 10) Explodo.rng0).food = none ∨
      ∃ p, (Explodo.update_food Explodo.gsFuse (2 / 10) Explodo.rng0).food =
        some { pos := p, kind := Explodo.FoodKind.leaf }) :=
  (c5_fuse_tick Explodo.gsFuse (2 / 10) Explodo.rng0
    { pos := (3, 3), kind := Explodo.FoodKind.nitro, fuse := 1 / 10, fuse_total := 1 / 10 }
    rfl rfl).2 (by norm_num)

/-- Claim C6, confirmed.  When the shuffled candidate list only draws from
`ring_cells` (which `random.shuffle` guarantees, since it permutes the
annulus list), every rock present after `trigger_explosion` is either an old
rock or a fresh debris cell that lies in the annulus (squared distance in
`[0.6·R², 1.3·R²]`), lies in bounds, and was occupied by neither the snake
body nor an existing obstacle. -/
theorem c6_debris_placement (gs : Explodo.GameState) (c : Pos) (n : Nat)
    (sh : List Pos) (hsh : ∀ p ∈ sh, p ∈ Explodo.ring_cells c) :
    ∀ p ∈ (Explodo.trigger_explosion gs c n sh).rocks,
      p ∈ gs.rocks ∨
        (Explodo.inAnnulus (Explodo.sqDist p c) = true ∧
          Explodo.within_bounds p.1 p.2 = true ∧
          p ∉ gs.snake ∧ p ∉ gs.rocks) := by
  intro p hp
  rw [Explodo.trigger_explosion_rocks] at hp
  rcases Explodo.mem_addDebris hp with hin | ⟨hps, hsn, hro, hbd⟩
  · exact Or.inl hin
  · have hring := hsh p (List.take_subset n sh hps)
    exact Or.inr ⟨(Explodo.mem_ring_cells hring).2, hbd, hsn, hro⟩

/-- Claim C6, witness: debris candidate `(12,10)` around center `(10,10)`
(squared distance 4, inside the annulus) lands as a fresh rock satisfying
all placement conditions. -/
theorem c6_debris_placement_witness :
    (12, 10) ∈ Explodo.gsRing.rocks ∨
      (Explodo.inAnnulus (Explodo.sqDist (12, 10) (10, 10)) = true ∧
        Explodo.within_bounds (12, 10).1 (12, 10).2 = true ∧
        (12, 10) ∉ Explodo.gsRing.snake ∧ (12, 10) ∉ Explodo.gsRing.rocks) :=
  c6_debris_placement Explodo.gsRing (10, 10) 2 [(12, 10)] (by decide)
    (12, 10) (by decide)

/-- Claim C7, counterexample.  In the basic variant (`snake_game.py`, cited
by the claim), `Food.generate_position` cannot terminate once the body
covers the grid: every candidate the `while True` loop can ever draw is an
in-grid cell, and with the full grid as the body even trying *all* grid
cells finds no placement — the source loop spins forever instead of
no-opping. -/
theorem c7_counterexample :
    SnakeGame.generate_position SnakeGame.allCells SnakeGame.allCells = none :=
  SnakeGame.generate_position_none_of_covered SnakeGame.allCells (fun _ hq => hq)

/-- Claim C7, amended.  In the explodo variant, `spawn_food` is a total
function and silently no-ops whenever no unoccupied cell exists; in the
basic variant, however, `Food.generate_position` never returns once the body
covers every grid cell: whatever in-grid candidates the random stream
produces, none is accepted. -/
theorem c7_spawn_noop_amended :
    (∀ (gs : Explodo.GameState) (fl : Bool) (rng : Explodo.Rng),
      Explodo.empty_cells gs = [] → Explodo.spawn_food gs fl rng = gs) ∧
    (∀ body cands : List Pos, (∀ q ∈ SnakeGame.allCells, q ∈ body) →
      (∀ q ∈ cands, q ∈ SnakeGame.allCells) →
      SnakeGame.generate_position body cands = none) := by
  constructor
  · exact fun gs fl rng h => Explodo.spawn_food_noop gs fl rng h
  · intro body cands hb hc
    exact SnakeGame.generate_position_none_of_covered cands (fun q hq => hb q (hc q hq))

/-- Claim C7, witness: on the fully covered explodo grid, `spawn_food` is
the identity; and the basic variant's placement loop, fed every grid cell as
candidates over the full-grid body, still finds nothing. -/
theorem c7_spawn_noop_amended_witness :
    Explodo.spawn_food Explodo.fullState false Explodo.rng0 = Explodo.fullState ∧
    SnakeGame.generate_position SnakeGame.allCells SnakeGame.allCells = none :=
  ⟨c7_spawn_noop_amended.1 Explodo.fullState false Explodo.rng0
      Explodo.empty_cells_fullState,
    c7_spawn_noop_amended.2 SnakeGame.allCells SnakeGame.allCells
      (fun _ hq => hq) (fun _ hq => hq)⟩

/-- Claim C8, confirmed.  `change_direction` requested with the exact
reverse of the current direction leaves the whole snake state unchanged,
while any request that is not the exact reverse replaces the direction (and
changes nothing else). -/
theorem c8_no_reverse (s : SnakeGame.Snake) :
    s.change_direction (SnakeGame.opposite s.direction) = s ∧
    ∀ d : SnakeGame.Direction, d ≠ SnakeGame.opposite s.direction →
      s.change_direction d = { s with direction := d } := by
  obtain ⟨b, dir, g⟩ := s
  constructor
  · cases dir <;>
      simp [SnakeGame.Snake.change_direction, SnakeGame.opposite, SnakeGame.Direction.value]
  · intro d hd
    cases dir <;> cases d <;>
      simp_all [SnakeGame.Snake.change_direction, SnakeGame.Direction.value,
        SnakeGame.opposite]

/-- Claim C8, witness: for a snake heading right, requesting LEFT (the exact
reverse) is a no-op, and requesting UP replaces the direction. -/
theorem c8_no_reverse_witness :
    SnakeGame.Snake.change_direction SnakeGame.sBase
        (SnakeGame.opposite SnakeGame.sBase.direction) = SnakeGame.sBase ∧
    SnakeGame.Snake.change_direction SnakeGame.sBase SnakeGame.Direction.UP =
      { SnakeGame.sBase with direction := SnakeGame.Direction.UP } :=
  ⟨(c8_no_reverse SnakeGame.sBase).1,
    (c8_no_reverse SnakeGame.sBase).2 SnakeGame.Direction.UP (by decide)⟩

/-- Claim C9, confirmed.  In the explodo variant, whenever a live, unpaused
advance moves the head onto a nitro food, the snake dies in that same call
(the explosion is centered on the new head, distance 0), while the score
gains 25 and the growth counter gains 2 (on top of the tick's normal growth
consumption) before death. -/
theorem c9_nitro_eat_lethal (gs : Explodo.GameState) (rng : Explodo.Rng)
    (f : Explodo.Food) (ha : gs.alive = true) (hp : gs.paused = false)
    (hs : gs.snake ≠ [])
    (hb : Explodo.within_bounds (Explodo.newHead gs).1 (Explodo.newHead gs).2 = true)
    (hns : Explodo.newHead gs ∉ gs.snake) (hnr : Explodo.newHead gs ∉ gs.rocks)
    (hfe : gs.food = some f) (hfp : f.pos = Explodo.newHead gs)
    (hfk : f.kind = Explodo.FoodKind.nitro) :
    (Explodo.step_snake gs rng).alive = false ∧
    (Explodo.step_snake gs rng).score = gs.score + 25 ∧
    (Explodo.step_snake gs rng).grow =
      (if 0 < gs.grow then gs.grow - 1 else gs.grow) + 2 := by
  unfold Explodo.step_snake
  rw [if_neg (by simp [ha, hp])]
  simp only
  rw [if_neg (by simp [hb]), if_neg hns, if_neg hnr]
  unfold Explodo.eatFood
  rw [Explodo.moveBody_food, hfe]
  simp only
  rw [if_pos hfp.symm, hfk]
  simp only
  refine ⟨?_, ?_, ?_⟩
  · rw [Explodo.spawn_food_alive]
    apply Explodo.trigger_explosion_alive_of_head
    show Explodo.headPos (Explodo.moveBody gs (Explodo.newHead gs)) = Explodo.newHead gs
    exact Explodo.headPos_moveBody gs (Explodo.newHead gs) hs
  · rw [Explodo.spawn_food_score, Explodo.trigger_explosion_score]
    show (Explodo.moveBody gs (Explodo.newHead gs)).score + 25 = gs.score + 25
    rw [Explodo.moveBody_score]
  · rw [Explodo.spawn_food_grow, Explodo.trigger_explosion_grow]
    show (Explodo.moveBody gs (Explodo.newHead gs)).grow + 2 =
      (if 0 < gs.grow then gs.grow - 1 else gs.grow) + 2
    rw [Explodo.moveBody_grow]

/-- Claim C9, witness: the one-segment snake at `(5,5)` eating the nitro
food at `(6,5)` dies with score 25 and grow-counter 2. -/
theorem c9_nitro_eat_lethal_witness :
    (Explodo.step_snake Explodo.gsNitroEat Explodo.rng0).alive = false ∧
    (Explodo.step_snake Explodo.gsNitroEat Explodo.rng0).score =
      Explodo.gsNitroEat.score + 25 ∧
    (Explodo.step_snake Explodo.gsNitroEat Explodo.rng0).grow =
      (if 0 < Explodo.gsNitroEat.grow then Explodo.gsNitroEat.grow - 1
        else Explodo.gsNitroEat.grow) + 2 :=
  c9_nitro_eat_lethal Explodo.gsNitroEat Explodo.rng0
    { pos := (6, 5), kind := Explodo.FoodKind.nitro, fuse := 5, fuse_total := 5 }
    rfl rfl (by decide) (by decide) (by decide) (by decide) rfl rfl rfl

/-- Claim C10, confirmed.  Two direction changes processed between two
advances compose into an exact reversal that the per-call no-reverse rule
does not prevent: heading RIGHT, requesting UP and then LEFT leaves the
snake heading LEFT (the reverse of RIGHT), and the following move puts the
head exactly onto the old neck segment `(4,5)`, which `check_collision`
reports as a self-collision. -/
theorem c10_double_turn_reversal :
    (SnakeGame.Snake.change_direction
        (SnakeGame.Snake.change_direction SnakeGame.sTriple SnakeGame.Direction.UP)
        SnakeGame.Direction.LEFT).direction
      = SnakeGame.opposite SnakeGame.sTriple.direction ∧
    (SnakeGame.Snake.move
        (SnakeGame.Snake.change_direction
          (SnakeGame.Snake.change_direction SnakeGame.sTriple SnakeGame.Direction.UP)
          SnakeGame.Direction.LEFT)).headCell = (4, 5) ∧
    SnakeGame.sTriple.body.get? 1 = some ((4 : Int), (5 : Int)) ∧
    SnakeGame.Snake.check_collision
      (SnakeGame.Snake.move
        (SnakeGame.Snake.change_direction
          (SnakeGame.Snake.change_direction SnakeGame.sTriple SnakeGame.Direction.UP)
          SnakeGame.Direction.LEFT)) = true := by
  decide
